import Mathlib

/-!
Verification development for the yugayatra-backend test subsystem.

This file gives a shallow embedding, in Lean, of the test-session core of the
repository: the scoring engine (`testSchema.methods.calculateScore`,
`submitAnswer`, `completeTest` in the Test model), the test routes
(`/api/tests/answer`, `/flag`, `/submit`, `/proctoring`, `/status`, and the
user-record update performed by `/start`), the eligibility gate
(`userSchema.methods.canAttemptTest`), the proctoring monitor
(`ProctoringService.recordViolation`), and the question selector
(`questionSchema.statics.getRandomQuestions`).

Conventions used throughout:
* JavaScript numbers that can become `NaN` or `Infinity` are modelled by the
  type `JsNum`; ordinary finite arithmetic is modelled by `Rat`/`Int`/`Nat`.
* Timestamps (`Date` values) are integers counting milliseconds, so
  `new Date() - test.startTime` becomes integer subtraction.
* Mongo documents become structures; a route handler becomes a function from
  the persisted state (plus the request arguments and the current time) to the
  new persisted state paired with an abstracted HTTP response.
* Randomness (`$sample`, the `sort(() => Math.random() - 0.5)` shuffle) is
  modelled by parameterising over a sampler/shuffler, constrained only by the
  properties the MongoDB documentation guarantees (a without-replacement draw,
  resp. a permutation).
-/

/-! ## JavaScript number semantics -/

/-- A JavaScript number as it matters for this code base: either a finite
rational or one of the special values `NaN`, `Infinity`, `-Infinity`. -/
inductive JsNum where
  | nan
  | posInf
  | negInf
  | fin (q : Rat)
deriving DecidableEq, Repr

/-- JavaScript division of two finite numbers (`a / b`): division by (positive)
zero yields `±Infinity`, and `0 / 0` yields `NaN`. -/
def jsDiv (a b : Rat) : JsNum :=
  if b = 0 then
    if a = 0 then .nan
    else if 0 < a then .posInf
    else .negInf
  else .fin (a / b)

/-- Multiplication of a JavaScript number by a positive finite constant
(the `* 100` step of the percentage formulas). -/
def jsMulPos (x : JsNum) (c : Rat) : JsNum :=
  match x with
  | .nan => .nan
  | .posInf => .posInf
  | .negInf => .negInf
  | .fin q => .fin (q * c)

/-- `Math.round` on a finite rational: round half toward positive infinity. -/
def jsRound (q : Rat) : Int := ⌊q + 1/2⌋

/-- `Math.round` on a JavaScript number; the special values are fixed points. -/
def jsRoundNum : JsNum → JsNum
  | .nan => .nan
  | .posInf => .posInf
  | .negInf => .negInf
  | .fin q => .fin (jsRound q)

/-- JavaScript `x >= c` against a finite constant: false whenever `x` is
`NaN`, true for `Infinity`, false for `-Infinity`. -/
def jsGe (x : JsNum) (c : Rat) : Bool :=
  match x with
  | .nan => false
  | .posInf => true
  | .negInf => false
  | .fin q => decide (c ≤ q)

/-- JavaScript `a > b` on two possibly-special numbers: any comparison with
`NaN` is false. -/
def jsGt (a b : JsNum) : Bool :=
  match a, b with
  | .nan, _ => false
  | _, .nan => false
  | .posInf, .posInf => false
  | .posInf, _ => true
  | _, .posInf => false
  | .negInf, _ => false
  | .fin q, .negInf => (q = q)  -- any finite number exceeds -Infinity
  | .fin q, .fin r => decide (r < q)

/-! ## Proctoring monitor (`src/utils/proctoringService.js`) -/

/-- `ProctoringService.getViolationSeverity`: the fixed severity lookup; kinds
not in the map default to `'minor'`. -/
def getViolationSeverity (violationType : String) : String :=
  if violationType == "tab_switch" then "major"
  else if violationType == "window_blur" then "major"
  else if violationType == "fullscreen_exit" then "major"
  else if violationType == "copy_paste" then "critical"
  else if violationType == "right_click" then "minor"
  else if violationType == "keyboard_shortcut" then "major"
  else if violationType == "multiple_faces" then "critical"
  else if violationType == "no_face_detected" then "major"
  else if violationType == "suspicious_movement" then "minor"
  else if violationType == "developer_tools" then "critical"
  else "minor"

/-- One entry of a proctoring session's `violations` array (the random `id`
and the free-form `details` payload are irrelevant to the claims and omitted;
`severity` is stored at record time exactly as in the source). -/
structure ViolationRec where
  vtype : String
  severity : String
  timestamp : Int
deriving DecidableEq, Repr

/-- The per-test entry of `ProctoringService.activeTestSessions` (the fields
the monitor's decision reads). -/
structure ProcSession where
  violations : List ViolationRec
deriving DecidableEq, Repr

/-- Count of stored violations carrying the given severity string. -/
def severityCount (vs : List ViolationRec) (sev : String) : Nat :=
  (vs.filter (fun v => v.severity == sev)).length

/-- The result object of `ProctoringService.recordViolation`. -/
structure RecordViolationResult where
  totalViolations : Nat
  shouldTerminate : Bool
  criticalCount : Nat
  majorCount : Nat
  minorCount : Nat
deriving DecidableEq, Repr

/-- `ProctoringService.recordViolation(testId, violationType)`: append the
event (severity classified by the lookup), then decide termination from the
post-append counts: `critical >= 2 || major >= violationThreshold`.
`threshold` is the service's `violationThreshold` (env-configured, default 3);
`now` is the `new Date()` timestamp. -/
def recordViolation (s : ProcSession) (violationType : String) (now : Int)
    (threshold : Nat) : ProcSession × RecordViolationResult :=
  let v : ViolationRec := ⟨violationType, getViolationSeverity violationType, now⟩
  let s2 : ProcSession := ⟨s.violations ++ [v]⟩
  let crit := severityCount s2.violations "critical"
  let maj := severityCount s2.violations "major"
  let terminate := decide (2 ≤ crit) || decide (threshold ≤ maj)
  (s2, ⟨s2.violations.length, terminate, crit, maj, severityCount s2.violations "minor"⟩)

/-! ## Eligibility gate (`userSchema.methods.canAttemptTest`, part_004) -/

/-- The `testInfo` sub-document of the user schema (the candidate attempt
record). `bestScore` is a JavaScript number because submit copies
`test.score.percentage` into it. -/
structure TestInfo where
  totalAttempts : Nat
  lastAttemptDate : Option Int
  bestScore : JsNum
  hasQualified : Bool
  qualificationDate : Option Int
  blockedUntil : Option Int
  blockedReason : Option String
deriving DecidableEq, Repr

/-- Result shape of `canAttemptTest`. -/
structure EligibilityResult where
  canAttempt : Bool
  reason : Option String
deriving DecidableEq, Repr

/-- `userSchema.methods.canAttemptTest`: the four rejection rules in source
order — future block, already qualified, attempt cap, 24h cooldown.
`maxAttempts` is `parseInt(process.env.MAX_ATTEMPTS) || 5`; `now` is the
current time in milliseconds. -/
def canAttemptTest (info : TestInfo) (maxAttempts : Nat) (now : Int) :
    EligibilityResult :=
  if (info.blockedUntil.map (fun b => decide (now < b))).getD false then
    ⟨false, some "Account is temporarily blocked"⟩
  else if info.hasQualified then
    ⟨false, some "Already qualified"⟩
  else if maxAttempts ≤ info.totalAttempts then
    ⟨false, some "Maximum attempts reached"⟩
  else
    match info.lastAttemptDate with
    | some last =>
        let hoursDiff : Rat := ((now - last : Int) : Rat) / (1000 * 60 * 60)
        if hoursDiff < 24 then
          ⟨false, some s!"Please wait {⌈(24 : Rat) - hoursDiff⌉} hours before next attempt"⟩
        else ⟨true, none⟩
    | none => ⟨true, none⟩

/-- Modelled from the spec (§4.5): the eligibility gate as a priority-ordered
rule list, evaluated left to right; the reason of the first failing rule is
returned. This is the specification-side definition used to state that
`canAttemptTest` is a refinement of the spec's "first failing check" order. -/
def specEligibilityRules (maxAttempts : Nat) (now : Int) :
    List ((TestInfo → Bool) × (TestInfo → String)) :=
  [ (fun info => (info.blockedUntil.map (fun b => decide (now < b))).getD false,
     fun _ => "Account is temporarily blocked"),
    (fun info => info.hasQualified,
     fun _ => "Already qualified"),
    (fun info => decide (maxAttempts ≤ info.totalAttempts),
     fun _ => "Maximum attempts reached"),
    (fun info => (info.lastAttemptDate.map
        (fun last => decide ((((now - last : Int) : Rat) / (1000 * 60 * 60)) < 24))).getD false,
     fun info =>
       match info.lastAttemptDate with
       | some last =>
           s!"Please wait {⌈(24 : Rat) - ((now - last : Int) : Rat) / (1000 * 60 * 60)⌉} hours before next attempt"
       | none => "") ]

/-- First failing rule's reason, or `none` when every rule passes. -/
def firstFailingReason (rules : List ((TestInfo → Bool) × (TestInfo → String)))
    (info : TestInfo) : Option String :=
  match rules with
  | [] => none
  | r :: rest => if r.1 info then some (r.2 info) else firstFailingReason rest info

/-- The user-record mutation performed by `POST /api/tests/start` (part_003,
lines 151–154) once the new test document has been saved:
`user.testInfo.totalAttempts += 1; user.testInfo.lastAttemptDate = new Date()`. -/
def startTestUserUpdate (info : TestInfo) (now : Int) : TestInfo :=
  { info with
    totalAttempts := info.totalAttempts + 1
    lastAttemptDate := some now }

/-! ## Test session model (Test schema, part_004 second half) -/

/-- One entry of a question's `options` array. -/
structure QOption where
  text : String
  isCorrect : Bool
deriving DecidableEq, Repr

/-- The `userResponse` sub-document of a question slot. -/
structure UserResponse where
  selectedOption : String
  selectedAnswer : String
  timeSpent : Nat
  answeredAt : Option Int
  isAnswered : Bool
  flaggedForReview : Bool
deriving DecidableEq, Repr

/-- A fresh `userResponse` as built by `POST /api/tests/start`. -/
def UserResponse.initial : UserResponse :=
  ⟨"", "", 0, none, false, false⟩

/-- One element of `test.questions`: the frozen question snapshot plus the
response state and the evaluation outcome (`isCorrect` defaults to `null`). -/
structure TestQuestion where
  questionNumber : Nat
  questionText : String
  questionType : String
  category : String
  difficulty : String
  points : Int
  negativePoints : Int
  options : List QOption
  correctAnswer : String
  userResponse : UserResponse
  isCorrect : Option Bool
  pointsEarned : Int
deriving DecidableEq, Repr

/-- The `testConfig` snapshot stored on the test. -/
structure TestConfig where
  totalQuestions : Nat
  durationMinutes : Int
  passingPercentage : Int
  negativeMarking : Bool
deriving DecidableEq, Repr

/-- `test.status` (the schema's enum). -/
inductive TestStatus where
  | Scheduled
  | InProgress
  | Completed
  | Submitted
  | Evaluated
  | Cancelled
  | Expired
deriving DecidableEq, Repr

/-- One group row of `categoryWiseScore` / `difficultyWiseScore`. -/
structure GroupScore where
  key : String
  totalQuestions : Nat
  correctAnswers : Nat
  percentage : JsNum
  points : Int
deriving DecidableEq, Repr

/-- The `score` sub-document. `percentage` is a JavaScript number: the source
computes it by an unguarded division. -/
structure Score where
  totalQuestions : Nat
  attemptedQuestions : Nat
  correctAnswers : Nat
  wrongAnswers : Nat
  unansweredQuestions : Nat
  totalPoints : Int
  pointsEarned : Int
  negativePoints : Int
  netScore : Int
  percentage : JsNum
  grade : String
  categoryWiseScore : List GroupScore
  difficultyWiseScore : List GroupScore
deriving DecidableEq, Repr

/-- The schema defaults of the `score` sub-document. -/
def Score.initial : Score :=
  ⟨0, 0, 0, 0, 0, 0, 0, 0, 0, .fin 0, "F", [], []⟩

/-- One entry of `analytics.attemptPattern`. -/
structure AttemptEvent where
  timestamp : Int
  action : String
  questionNumber : Nat
deriving DecidableEq, Repr

/-- The `analytics` sub-document (the fields written by `calculateAnalytics`
and by the flag route). -/
structure Analytics where
  avgTimePerQuestion : Int
  fastestQuestion : Option (Nat × Nat)
  slowestQuestion : Option (Nat × Nat)
  timeDistribution : List (String × Nat)
  attemptPattern : List AttemptEvent
deriving DecidableEq, Repr

def Analytics.initial : Analytics := ⟨0, none, none, [], []⟩

/-- The `proctoring` sub-document (the fields the violation route touches).
`suspiciousActivities` is declared in the schema (part_004, lines 585–589) as
`[{ type: String, timestamp: Date, description: String }]`; because the inner
object carries a `type` key whose value is a schema type, mongoose's type-key
rule reads it as an array of plain Strings (`timestamp` and `description`
become options of the String path, not fields), so the field is modelled as
`List String` — not as a subdocument array. -/
structure TestProctoring where
  fullScreenViolations : Nat
  tabSwitchViolations : Nat
  suspiciousActivities : List String
deriving DecidableEq, Repr

/-- A test document: the fields of the Test schema that the session state
machine reads or writes. -/
structure Test where
  testConfig : TestConfig
  questions : List TestQuestion
  startTime : Int
  endTime : Option Int
  submittedAt : Option Int
  timeRemaining : Rat
  status : TestStatus
  score : Score
  isPassed : Bool
  analytics : Analytics
  proctoring : TestProctoring
deriving DecidableEq, Repr

/-! ## Scoring engine (`testSchema.methods.calculateScore`) -/

/-- The accumulating pass of `calculateScore`'s `forEach` over the questions:
every question adds its `points` to `totalPoints`; an answered question is
counted as correct (earning `points`) when its stored `isCorrect` is truthy,
otherwise as wrong (accruing `negativePoints` when negative marking is on);
an unanswered question only bumps `unansweredQuestions`. -/
structure ScoreTally where
  attemptedQuestions : Nat
  correctAnswers : Nat
  wrongAnswers : Nat
  unansweredQuestions : Nat
  totalPoints : Int
  pointsEarned : Int
  negativePoints : Int
deriving DecidableEq, Repr

def tallyStep (negativeMarking : Bool) (acc : ScoreTally) (q : TestQuestion) :
    ScoreTally :=
  let acc := { acc with totalPoints := acc.totalPoints + q.points }
  if q.userResponse.isAnswered then
    if q.isCorrect = some true then
      { acc with
        attemptedQuestions := acc.attemptedQuestions + 1
        correctAnswers := acc.correctAnswers + 1
        pointsEarned := acc.pointsEarned + q.points }
    else
      { acc with
        attemptedQuestions := acc.attemptedQuestions + 1
        wrongAnswers := acc.wrongAnswers + 1
        negativePoints :=
          acc.negativePoints + (if negativeMarking then q.negativePoints else 0) }
  else
    { acc with unansweredQuestions := acc.unansweredQuestions + 1 }

def tallyQuestions (negativeMarking : Bool) (qs : List TestQuestion) : ScoreTally :=
  qs.foldl (tallyStep negativeMarking) ⟨0, 0, 0, 0, 0, 0, 0⟩

/-- `[...new Set(list)]`: the distinct values in first-occurrence order. -/
def distinctInOrder (l : List String) : List String :=
  l.foldl (fun acc c => if acc.contains c then acc else acc ++ [c]) []

/-- The per-group reduce of the breakdown loops:
`q.isCorrect ? q.points : (q.userResponse.isAnswered ? -q.negativePoints : 0)`
(note: the source applies the penalty here regardless of the
`negativeMarking` flag). -/
def groupPoints (qs : List TestQuestion) : Int :=
  qs.foldl
    (fun sum q =>
      sum + (if q.isCorrect = some true then q.points
             else if q.userResponse.isAnswered then -q.negativePoints else 0))
    0

/-- One iteration of the category-wise (resp. difficulty-wise) loop of
`calculateScore`, for the group of questions whose key field equals `key`. -/
def groupScore (key : String) (qs : List TestQuestion) : GroupScore :=
  let correct := (qs.filter (fun q => q.isCorrect = some true)).length
  { key := key
    totalQuestions := qs.length
    correctAnswers := correct
    percentage := jsRoundNum (jsMulPos (jsDiv (correct : Rat) (qs.length : Rat)) 100)
    points := groupPoints qs }

/-- `testSchema.methods.calculateScore`, as a pure function of the question
list and the config: tally the questions, compute
`netScore = pointsEarned - negativePoints` and
`percentage = Math.round((netScore / totalPoints) * 100)` (no divide-by-zero
guard), grade by the threshold ladder, and build the category- and
difficulty-wise breakdowns. -/
def calculateScore (qs : List TestQuestion) (cfg : TestConfig) : Score :=
  let t := tallyQuestions cfg.negativeMarking qs
  let netScore := t.pointsEarned - t.negativePoints
  let percentage :=
    jsRoundNum (jsMulPos (jsDiv (netScore : Rat) (t.totalPoints : Rat)) 100)
  let grade :=
    if jsGe percentage 90 then "A+"
    else if jsGe percentage 80 then "A"
    else if jsGe percentage 70 then "B+"
    else if jsGe percentage 60 then "B"
    else if jsGe percentage 50 then "C+"
    else if jsGe percentage 40 then "C"
    else if jsGe percentage 30 then "D"
    else "F"
  { totalQuestions := qs.length
    attemptedQuestions := t.attemptedQuestions
    correctAnswers := t.correctAnswers
    wrongAnswers := t.wrongAnswers
    unansweredQuestions := t.unansweredQuestions
    totalPoints := t.totalPoints
    pointsEarned := t.pointsEarned
    negativePoints := t.negativePoints
    netScore := netScore
    percentage := percentage
    grade := grade
    categoryWiseScore :=
      (distinctInOrder (qs.map (fun q => q.category))).map
        (fun c => groupScore c (qs.filter (fun q => q.category == c)))
    difficultyWiseScore :=
      (distinctInOrder (qs.map (fun q => q.difficulty))).map
        (fun d => groupScore d (qs.filter (fun q => q.difficulty == d))) }

/-- The `this.score = ...; this.isPassed = ...` tail of `calculateScore`:
store the computed score on the test and set
`isPassed = score.percentage >= testConfig.passingPercentage`. -/
def applyCalculateScore (t : Test) : Test :=
  let s := calculateScore t.questions t.testConfig
  { t with score := s, isPassed := jsGe s.percentage (t.testConfig.passingPercentage : Rat) }

/-! ## Answer recording (`testSchema.methods.submitAnswer`) -/

/-- Mutate the first element satisfying `p` (the semantics of mutating the
result of `array.find(...)` in the source). -/
def updateFirst {α : Type} (p : α → Bool) (f : α → α) : List α → List α
  | [] => []
  | x :: xs => if p x then f x :: xs else x :: updateFirst p f xs

/-- The per-question effect of `submitAnswer`: record the response, evaluate
correctness (option text equality for multiple-choice — with
`question.isCorrect` left `null` if no option is marked correct —
trimmed case-insensitive equality otherwise), and set `pointsEarned`
(`+points` when correct, `-negativePoints` under negative marking, else 0). -/
def answerQuestion (negativeMarking : Bool) (answer : String) (timeSpent : Nat)
    (now : Int) (q : TestQuestion) : TestQuestion :=
  let ur := { q.userResponse with
    selectedAnswer := answer
    timeSpent := timeSpent
    answeredAt := some now
    isAnswered := true }
  let res :
      Option Bool × UserResponse :=
    if q.questionType == "Multiple Choice" then
      match q.options.find? (fun o => o.isCorrect) with
      | some correctOption =>
          (some (correctOption.text == answer), { ur with selectedOption := answer })
      | none => (none, { ur with selectedOption := answer })
    else
      (some (q.correctAnswer.toLower.trim == answer.toLower.trim), ur)
  let pointsEarned : Int :=
    if res.1 = some true then q.points
    else if negativeMarking then -q.negativePoints
    else 0
  { q with userResponse := res.2, isCorrect := res.1, pointsEarned := pointsEarned }

/-- `testSchema.methods.submitAnswer(questionNumber, answer, timeSpent)`:
throws `'Question not found'` when no question carries the number, otherwise
overwrites that question's response state (idempotent per question). -/
def submitAnswer (t : Test) (questionNumber : Nat) (answer : String)
    (timeSpent : Nat) (now : Int) : Except String Test :=
  match t.questions.find? (fun q => q.questionNumber == questionNumber) with
  | none => .error "Question not found"
  | some _ =>
      let qs :=
        updateFirst (fun q => q.questionNumber == questionNumber)
          (answerQuestion t.testConfig.negativeMarking answer timeSpent now)
          t.questions
      .ok { t with questions := qs }

/-! ## Analytics (`testSchema.methods.calculateAnalytics`) -/

/-- Stable insertion by ascending `timeSpent` (the semantics of the stable
JavaScript `sort((a, b) => a.timeSpent - b.timeSpent)`). -/
def insertByTime (q : TestQuestion) : List TestQuestion → List TestQuestion
  | [] => [q]
  | x :: xs =>
      if q.userResponse.timeSpent < x.userResponse.timeSpent then q :: x :: xs
      else x :: insertByTime q xs

def sortByTime : List TestQuestion → List TestQuestion
  | [] => []
  | x :: xs => insertByTime x (sortByTime xs)

/-- Count of answered questions whose `timeSpent` falls in `[lo, hi)`
(`hi = none` encodes the `120s+` bucket's `Infinity` bound). -/
def timeRangeCount (qs : List TestQuestion) (lo : Nat) (hi : Option Nat) : Nat :=
  (qs.filter (fun q =>
    decide (lo ≤ q.userResponse.timeSpent) &&
    (match hi with
     | some h => decide (q.userResponse.timeSpent < h)
     | none => true))).length

/-- `testSchema.methods.calculateAnalytics`: with no answered question only
`avgTimePerQuestion` is reset to 0; otherwise the average, the fastest and
slowest question, and the time-distribution histogram are recomputed. -/
def calculateAnalytics (t : Test) : Test :=
  let answered := t.questions.filter (fun q => q.userResponse.isAnswered)
  if answered.isEmpty then
    { t with analytics := { t.analytics with avgTimePerQuestion := 0 } }
  else
    let totalTime : Nat := answered.foldl (fun s q => s + q.userResponse.timeSpent) 0
    let sorted := sortByTime answered
    { t with analytics := { t.analytics with
        avgTimePerQuestion := jsRound ((totalTime : Rat) / (answered.length : Rat))
        fastestQuestion :=
          sorted.head?.map (fun q => (q.questionNumber, q.userResponse.timeSpent))
        slowestQuestion :=
          sorted.getLast?.map (fun q => (q.questionNumber, q.userResponse.timeSpent))
        timeDistribution :=
          [ ("0-30s", timeRangeCount answered 0 (some 30)),
            ("30-60s", timeRangeCount answered 30 (some 60)),
            ("60-120s", timeRangeCount answered 60 (some 120)),
            ("120s+", timeRangeCount answered 120 none) ] } }

/-! ## Completion (`testSchema.methods.completeTest`) -/

/-- `testSchema.methods.completeTest`: throws unless the test is
`'In Progress'`; otherwise stamps `endTime`/`submittedAt`, passes through
`'Completed'`, runs the scoring engine and the analytics pass, and lands on
`'Evaluated'`. -/
def completeTest (t : Test) (now : Int) : Except String Test :=
  if t.status ≠ .InProgress then .error "Test is not in progress"
  else
    let t2 := { t with
      endTime := some now
      submittedAt := some now
      status := TestStatus.Completed }
    let t3 := calculateAnalytics (applyCalculateScore t2)
    .ok { t3 with status := TestStatus.Evaluated }

/-! ## Route handlers (part_003) -/

/-- Abstraction of the HTTP responses the test routes can produce. -/
inductive Resp where
  | ok
  | invalidState
  | notFound
  | expiredError
  | validationError
  | serverError
deriving DecidableEq, Repr

/-- `PUT /api/tests/answer/:testId`: reject unless `'In Progress'`; compute
`timeElapsed = (now - startTime) / 1000` and reject-and-force-complete when it
exceeds `durationMinutes * 60`; otherwise record the answer and refresh
`timeRemaining`. -/
def answerRoute (t : Test) (questionNumber : Nat) (answer : String)
    (timeSpent : Nat) (now : Int) : Test × Resp :=
  if t.status ≠ .InProgress then (t, .invalidState)
  else
    let timeElapsed : Rat := ((now - t.startTime : Int) : Rat) / 1000
    let timeLimit : Rat := (t.testConfig.durationMinutes : Rat) * 60
    if timeLimit < timeElapsed then
      match completeTest t now with
      | .ok t2 => (t2, .expiredError)
      | .error _ => (t, .serverError)
    else
      match submitAnswer t questionNumber answer timeSpent now with
      | .ok t2 => ({ t2 with timeRemaining := max 0 (timeLimit - timeElapsed) }, .ok)
      | .error _ => (t, .serverError)

/-- `PUT /api/tests/flag/:testId`: reject unless `'In Progress'`; 404 when the
question number is unknown; otherwise set `flaggedForReview` and append a
`flagged`/`unflagged` event to `analytics.attemptPattern`. No time check. -/
def flagRoute (t : Test) (questionNumber : Nat) (flagged : Bool) (now : Int) :
    Test × Resp :=
  if t.status ≠ .InProgress then (t, .invalidState)
  else
    match t.questions.find? (fun q => q.questionNumber == questionNumber) with
    | none => (t, .notFound)
    | some _ =>
        ({ t with
          questions :=
            updateFirst (fun q => q.questionNumber == questionNumber)
              (fun q => { q with userResponse :=
                { q.userResponse with flaggedForReview := flagged } })
              t.questions
          analytics := { t.analytics with attemptPattern :=
            t.analytics.attemptPattern ++
              [⟨now, if flagged then "flagged" else "unflagged", questionNumber⟩] } },
         .ok)

/-- `POST /api/tests/proctoring/:testId`: the validator restricts the type to
`tab_switch` / `full_screen_exit` / `suspicious_activity`, and the handler
answers 400 unless the session is `'In Progress'`. The handler then bumps the
matching in-memory counter and pushes the event object
`{type, timestamp, description}` onto `proctoring.suspiciousActivities` — but
that path is an array of plain Strings (the schema's type-key rule, see
`TestProctoring`), so the push throws a mongoose `CastError` before
`test.save()` ever runs; the handler's catch answers 500 and no mutation is
persisted. The append, the counter updates and the `>= 5` auto-submit check
are unreachable, so the persisted-state semantics of the route on a valid
in-progress request is: state unchanged, server error. -/
def proctoringRoute (t : Test) (violationType : String)
    (_description : Option String) (_now : Int) : Test × Resp :=
  if !(["tab_switch", "full_screen_exit", "suspicious_activity"].contains violationType) then
    (t, .validationError)
  else if t.status ≠ .InProgress then (t, .invalidState)
  else (t, .serverError)

/-- `POST /api/tests/submit/:testId`: reject unless `'In Progress'`; complete
the test, then fold the result into the candidate record — `bestScore` when the
percentage improves on it, `hasQualified`/`qualificationDate` when passed. No
time check: a submit after expiry still scores normally. -/
def submitRoute (t : Test) (info : TestInfo) (now : Int) :
    Test × TestInfo × Resp :=
  if t.status ≠ .InProgress then (t, info, .invalidState)
  else
    match completeTest t now with
    | .error _ => (t, info, .serverError)
    | .ok t2 =>
        let info2 :=
          if jsGt t2.score.percentage info.bestScore then
            { info with bestScore := t2.score.percentage }
          else info
        let info3 :=
          if t2.isPassed then
            { info2 with hasQualified := true, qualificationDate := some now }
          else info2
        (t2, info3, .ok)

/-- `GET /api/tests/status/:testId` (persisted-state view): for an
`'In Progress'` test recompute `timeRemaining` and force-complete when it has
reached 0 (the refreshed `timeRemaining` is only persisted through
`completeTest`'s save; the route itself never saves). Any other status is
read-only. -/
def statusRoute (t : Test) (now : Int) : Test × Resp :=
  if t.status = .InProgress then
    let timeElapsed : Rat := ((now - t.startTime : Int) : Rat) / 1000
    let timeLimit : Rat := (t.testConfig.durationMinutes : Rat) * 60
    let remaining := max 0 (timeLimit - timeElapsed)
    if remaining ≤ 0 then
      match completeTest { t with timeRemaining := remaining } now with
      | .ok t2 => (t2, .ok)
      | .error _ => (t, .serverError)
    else (t, .ok)
  else (t, .ok)

/-! ## Question selector (`questionSchema.statics.getRandomQuestions`,
`src/models/Question.js`) -/

/-- A question document, reduced to the fields the selector's pipeline
matches on (`_id`, `status`, `isApproved`, `category`, `difficulty`). -/
structure Question where
  id : Nat
  status : String
  isApproved : Bool
  category : String
  difficulty : String
deriving DecidableEq, Repr

/-- The base `$match` stage: `status: 'Active'`, `isApproved: true`,
`_id` not excluded, and — only when a category list was given — the category
filter. -/
def eligibleQuestions (pool : List Question) (categories : List String)
    (excludeIds : List Nat) : List Question :=
  pool.filter (fun q =>
    q.status == "Active" && q.isApproved && !(excludeIds.contains q.id) &&
    (categories.isEmpty || categories.contains q.category))

/-- `Math.round((count * percentage) / 100)`: the per-difficulty bucket
target (clamped at 0, as a `$sample` size is a count). -/
def bucketSize (count : Nat) (percentage : Int) : Nat :=
  (jsRound ((((count : Int) * percentage : Int) : Rat) / 100)).toNat

/-- The `for (const [diff, percentage] of Object.entries(difficulty))` loop:
one `$sample` of the bucket target from the base pool restricted to that
difficulty, results concatenated in iteration order. The `$sample` stage is
abstracted by `sampler`. -/
def drawBuckets (sampler : List Question → Nat → List Question)
    (base : List Question) (count : Nat) :
    List (String × Int) → List Question
  | [] => []
  | dp :: rest =>
      sampler (base.filter (fun q => q.difficulty == dp.1)) (bucketSize count dp.2)
        ++ drawBuckets sampler base count rest

/-- `questionSchema.statics.getRandomQuestions`: draw each difficulty bucket,
top up from the not-yet-selected remainder of the base pool when short of
`count`, then shuffle and `slice(0, count)`. `sampler` abstracts `$sample`
(a without-replacement draw) and `shuffle` abstracts
`sort(() => Math.random() - 0.5)` (some permutation). -/
def getRandomQuestions (sampler : List Question → Nat → List Question)
    (shuffle : List Question → List Question) (pool : List Question)
    (count : Nat) (difficulty : List (String × Int)) (categories : List String)
    (excludeIds : List Nat) : List Question :=
  let base := eligibleQuestions pool categories excludeIds
  let bucketQs := drawBuckets sampler base count difficulty
  let questions :=
    if bucketQs.length < count then
      let usedIds := bucketQs.map (fun q => q.id)
      bucketQs ++
        sampler (base.filter (fun q => !(usedIds.contains q.id)))
          (count - bucketQs.length)
    else bucketQs
  (shuffle questions).take count

open List

/-! ## Concrete fixtures used by witnesses and counterexamples -/

/-- The default test configuration of `POST /api/tests/start`, with
`totalQuestions` at 10 to match the worked scoring scenario. -/
def cfgDefault : TestConfig :=
  { totalQuestions := 10
    durationMinutes := 30
    passingPercentage := 65
    negativeMarking := true }

/-- A question slot worth 3 points (1 negative point), in the state
`submitAnswer` leaves it in: answered correctly, answered wrongly, or
untouched. -/
def slot (n : Nat) (answered : Bool) (correct : Bool) : TestQuestion :=
  { questionNumber := n
    questionText := "q"
    questionType := "Multiple Choice"
    category := "General"
    difficulty := "Easy"
    points := 3
    negativePoints := 1
    options := [⟨"A", true⟩, ⟨"B", false⟩]
    correctAnswer := "A"
    userResponse :=
      { UserResponse.initial with
        isAnswered := answered
        selectedAnswer := if answered then (if correct then "A" else "B") else ""
        selectedOption := if answered then (if correct then "A" else "B") else "" }
    isCorrect := if answered then some correct else none
    pointsEarned := if answered then (if correct then 3 else -1) else 0 }

/-- The worked scenario: 10 questions, 6 correct, 2 wrong, 2 unanswered. -/
def c3Questions : List TestQuestion :=
  [slot 1 true true, slot 2 true true, slot 3 true true, slot 4 true true,
   slot 5 true true, slot 6 true true, slot 7 true false, slot 8 true false,
   slot 9 false false, slot 10 false false]

/-- A freshly begun in-progress test over the scenario's question list. -/
def tInProg : Test :=
  { testConfig := cfgDefault
    questions := c3Questions
    startTime := 0
    endTime := none
    submittedAt := none
    timeRemaining := 1800
    status := .InProgress
    score := Score.initial
    isPassed := false
    analytics := Analytics.initial
    proctoring := ⟨0, 0, []⟩ }

/-- The same session after evaluation (status `'Evaluated'`). -/
def tEval : Test := { tInProg with status := TestStatus.Evaluated }

/-- A candidate record with attempts left and no block. -/
def infoFree : TestInfo := ⟨2, none, .fin 0, false, none, none, none⟩

/-! ## C3 — worked scoring scenario -/

/-- C3: on the 10-question session with 6 correct, 2 wrong and 2 unanswered
answers (3 points, 1 negative point each, negative marking on), the scoring
engine produces totalPoints 30, pointsEarned 18, negativePoints 2, netScore
16, percentage `round(16/30*100) = 53`, grade `C+`, and `isPassed = false`
against the passing percentage 65. -/
theorem scoring_scenario_C3 :
    (calculateScore c3Questions cfgDefault).totalPoints = 30 ∧
    (calculateScore c3Questions cfgDefault).pointsEarned = 18 ∧
    (calculateScore c3Questions cfgDefault).negativePoints = 2 ∧
    (calculateScore c3Questions cfgDefault).netScore = 16 ∧
    (calculateScore c3Questions cfgDefault).percentage = JsNum.fin 53 ∧
    (calculateScore c3Questions cfgDefault).grade = "C+" ∧
    (applyCalculateScore tInProg).isPassed = false := by
  have ht : tallyQuestions true c3Questions = ⟨8, 6, 2, 2, 30, 18, 2⟩ := by
    decide
  refine ⟨?_, ?_, ?_, ?_, ?_, ?_, ?_⟩ <;>
    norm_num [calculateScore, applyCalculateScore, tInProg, cfgDefault, ht,
      jsDiv, jsMulPos, jsRoundNum, jsRound, jsGe]

/-! ## C4 — what session creation does to the candidate record -/

/-- C4 counterexample: creating a new test session does NOT leave the
candidate's attempt record unchanged — `POST /api/tests/start` increments
`totalAttempts` and overwrites `lastAttemptDate` (part_003, lines 151–154),
so the record with 2 attempts comes out with 3. -/
theorem start_mutates_attempt_record_C4_cex :
    (startTestUserUpdate infoFree 5).totalAttempts = 3 ∧
    infoFree.totalAttempts = 2 ∧
    (startTestUserUpdate infoFree 5).lastAttemptDate = some 5 ∧
    infoFree.lastAttemptDate = none := by
  decide

/-- C4 (amended): session creation increments `totalAttempts` and sets
`lastAttemptDate` to the creation time, and leaves `bestScore`,
`hasQualified`, `qualificationDate` and the block fields unchanged. -/
theorem start_frame_C4 :
    ∀ (info : TestInfo) (now : Int),
      (startTestUserUpdate info now).totalAttempts = info.totalAttempts + 1 ∧
      (startTestUserUpdate info now).lastAttemptDate = some now ∧
      (startTestUserUpdate info now).bestScore = info.bestScore ∧
      (startTestUserUpdate info now).hasQualified = info.hasQualified ∧
      (startTestUserUpdate info now).qualificationDate = info.qualificationDate ∧
      (startTestUserUpdate info now).blockedUntil = info.blockedUntil ∧
      (startTestUserUpdate info now).blockedReason = info.blockedReason := by
  intro info now
  simp [startTestUserUpdate]

/-! ## C8 — proctoring monitor termination threshold -/

/-- C8: after appending the new event, the monitor reports termination exactly
when the critical count reaches 2 or the major count reaches the configured
threshold — the triggering event included — and hence two critical
(`copy_paste`) violations in sequence trip the flag on the second call, not
the first. -/
theorem violation_threshold_C8 :
    (∀ (s : ProcSession) (violationType : String) (now : Int) (threshold : Nat),
      (recordViolation s violationType now threshold).2.shouldTerminate = true ↔
        (2 ≤ severityCount ((recordViolation s violationType now threshold).1).violations "critical" ∨
         threshold ≤ severityCount ((recordViolation s violationType now threshold).1).violations "major")) ∧
    (∀ now1 now2 : Int,
      (recordViolation ⟨[]⟩ "copy_paste" now1 3).2.shouldTerminate = false ∧
      (recordViolation (recordViolation ⟨[]⟩ "copy_paste" now1 3).1
          "copy_paste" now2 3).2.shouldTerminate = true) := by
  constructor
  · intro s violationType now threshold
    simp [recordViolation]
  · intro now1 now2
    constructor
    · simp [recordViolation, severityCount, getViolationSeverity]
    · simp [recordViolation, severityCount, getViolationSeverity]

/-! ## C7 — eligibility gate priority order -/

/-- C7: `canAttemptTest` evaluates the rejection rules in the fixed priority
order (future block, already qualified, attempt cap, 24h cooldown) and
returns the reason of the first failing rule; in particular a record with
`totalAttempts = 5`, `maxAttempts = 5`, `hasQualified = false` and no block
is rejected with the maximum-attempts reason, whatever the current time. -/
theorem eligibility_priority_C7 :
    (∀ (info : TestInfo) (maxAttempts : Nat) (now : Int),
      (canAttemptTest info maxAttempts now).canAttempt =
        (firstFailingReason (specEligibilityRules maxAttempts now) info).isNone ∧
      (canAttemptTest info maxAttempts now).reason =
        firstFailingReason (specEligibilityRules maxAttempts now) info) ∧
    (∀ now : Int,
      canAttemptTest ⟨5, none, .fin 0, false, none, none, none⟩ 5 now =
        ⟨false, some "Maximum attempts reached"⟩) := by
  constructor
  · intro info maxAttempts now
    rcases hlast : info.lastAttemptDate with _ | last <;>
      simp [canAttemptTest, specEligibilityRules, firstFailingReason, hlast] <;>
      split_ifs <;>
      simp_all
  · intro now
    simp [canAttemptTest]

/-! ## C2 — at-most-once scoring -/

/-- C2: once a session is `'Evaluated'`, every operation — answer, flag,
violation report, submit, status poll — leaves the persisted test (score
block and slot outcomes included) unchanged and, for the mutating ones,
errors; and a successful submit moves an `'In Progress'` session to
`'Evaluated'`, so a second submit errors without touching the score. -/
theorem evaluated_immutable_C2 :
    ∀ (t : Test) (info : TestInfo) (qn : Nat) (ans : String) (ts : Nat)
      (flagged : Bool) (vt : String) (desc : Option String) (now : Int),
      (t.status = TestStatus.Evaluated →
        answerRoute t qn ans ts now = (t, Resp.invalidState) ∧
        flagRoute t qn flagged now = (t, Resp.invalidState) ∧
        (proctoringRoute t vt desc now).1 = t ∧
        submitRoute t info now = (t, info, Resp.invalidState) ∧
        statusRoute t now = (t, Resp.ok)) ∧
      (t.status = TestStatus.InProgress →
        (submitRoute t info now).1.status = TestStatus.Evaluated) := by
  intro t info qn ans ts flagged vt desc now
  constructor
  · intro h
    have hne : t.status ≠ TestStatus.InProgress := by simp [h]
    refine ⟨?_, ?_, ?_, ?_, ?_⟩
    · simp [answerRoute, hne]
    · simp [flagRoute, hne]
    · simp only [proctoringRoute]
      split_ifs <;> simp [hne]
    · simp [submitRoute, hne]
    · simp [statusRoute, h]
  · intro h
    simp [submitRoute, completeTest, h, calculateAnalytics, applyCalculateScore]

/-- C2 witness: on the concrete evaluated session every operation is rejected
and the state — in particular the score block — survives untouched, and the
concrete in-progress session lands on `'Evaluated'` after submit. -/
theorem evaluated_immutable_C2_witness :
    tEval.status = TestStatus.Evaluated ∧
    (answerRoute tEval 1 "A" 5 999999 = (tEval, Resp.invalidState) ∧
     flagRoute tEval 1 true 999999 = (tEval, Resp.invalidState) ∧
     (proctoringRoute tEval "tab_switch" none 999999).1 = tEval ∧
     submitRoute tEval infoFree 999999 = (tEval, infoFree, Resp.invalidState) ∧
     statusRoute tEval 999999 = (tEval, Resp.ok)) ∧
    tInProg.status = TestStatus.InProgress ∧
    (submitRoute tInProg infoFree 999999).1.status = TestStatus.Evaluated := by
  refine ⟨rfl, ?_, rfl, ?_⟩
  · exact (evaluated_immutable_C2 tEval infoFree 1 "A" 5 true "tab_switch" none 999999).1 rfl
  · exact (evaluated_immutable_C2 tInProg infoFree 1 "A" 5 true "tab_switch" none 999999).2 rfl

/-! ## C1 — lazy expiry enforcement -/

/-- C1 counterexample: the flag route performs no expiry check. On the
in-progress session started at time 0 with a 30-minute limit, a flag request
at t = 1000000 s (far past expiry) succeeds with 200 and leaves the session
`'In Progress'` — it is neither rejected with a session-expired error nor
forcibly completed, contradicting the claim for the flag operation. -/
theorem flag_ignores_expiry_C1_cex :
    ((1000000000 - tInProg.startTime : Int) : Rat) / 1000 >
      (tInProg.testConfig.durationMinutes : Rat) * 60 ∧
    (flagRoute tInProg 1 true 1000000000).2 = Resp.ok ∧
    (flagRoute tInProg 1 true 1000000000).1.status = TestStatus.InProgress := by
  refine ⟨by norm_num [tInProg, cfgDefault], ?_, ?_⟩ <;> decide

/-- C1 (amended): only the answer route enforces the time limit lazily — an
answer call on an `'In Progress'` session with
`(now - startTime)/1000 > durationMinutes*60` is rejected with the expired
error AND the session is forcibly completed and scored, reaching
`'Evaluated'`. The flag route applies its effect with no expiry check, the
violation route performs no expiry check either (it fails with a server error
before persisting anything — see the C10 analysis), and submit scores a late
session normally. -/
theorem answer_expiry_enforced_C1 :
    ∀ (t : Test) (qn : Nat) (ans : String) (ts : Nat) (now : Int),
      t.status = TestStatus.InProgress →
      (t.testConfig.durationMinutes : Rat) * 60 < ((now - t.startTime : Int) : Rat) / 1000 →
      (answerRoute t qn ans ts now).2 = Resp.expiredError ∧
      (answerRoute t qn ans ts now).1.status = TestStatus.Evaluated := by
  intro t qn ans ts now h hexp
  have hexp2 : (t.testConfig.durationMinutes : Rat) * 60 <
      ((now : Rat) - (t.startTime : Rat)) / 1000 := by
    push_cast at hexp
    exact hexp
  simp [answerRoute, h, hexp2, completeTest, calculateAnalytics, applyCalculateScore]

/-- C1 witness: the amended enforcement at the concrete expired session. -/
theorem answer_expiry_enforced_C1_witness :
    tInProg.status = TestStatus.InProgress ∧
    (tInProg.testConfig.durationMinutes : Rat) * 60 <
      ((1000000000 - tInProg.startTime : Int) : Rat) / 1000 ∧
    ((answerRoute tInProg 1 "A" 5 1000000000).2 = Resp.expiredError ∧
     (answerRoute tInProg 1 "A" 5 1000000000).1.status = TestStatus.Evaluated) := by
  have hexp : (tInProg.testConfig.durationMinutes : Rat) * 60 <
      ((1000000000 - tInProg.startTime : Int) : Rat) / 1000 := by
    norm_num [tInProg, cfgDefault]
  exact ⟨rfl, hexp, answer_expiry_enforced_C1 tInProg 1 "A" 5 1000000000 rfl hexp⟩

/-! ## C10 — the violation route can never record anything -/

/-- C10 (code bug): the claim matches the route handler's own logic — it
builds the event, bumps only the `tab_switch`/`full_screen_exit` counters and
compares their sum to 5 — but the schema's type-key slip defeats all of it.
On every valid violation report against an in-progress session (whatever the
type), the push of the event object onto the string-array
`suspiciousActivities` throws a `CastError`, the route answers 500, and the
persisted session is unchanged: no event is ever appended to the violation
log and no violation of any type is ever counted toward the auto-submit
threshold. -/
theorem proctoring_always_errors_C10 :
    ∀ (t : Test) (violationType : String) (description : Option String) (now : Int),
      t.status = TestStatus.InProgress →
      violationType ∈ ["tab_switch", "full_screen_exit", "suspicious_activity"] →
      proctoringRoute t violationType description now = (t, Resp.serverError) := by
  intro t violationType description now h hv
  have hc : (["tab_switch", "full_screen_exit",
      "suspicious_activity"].contains violationType) = true := by
    simpa using hv
  simp [proctoringRoute, hc, h]
  intro h1 h2
  simp only [List.mem_cons, List.not_mem_nil, or_false] at hv
  rcases hv with hv | hv | hv
  · exact absurd hv h1
  · exact absurd hv h2
  · exact hv

/-- C10 witness: a `suspicious_activity` report on the concrete in-progress
session errors with 500 and leaves the session untouched. -/
theorem proctoring_always_errors_C10_witness :
    tInProg.status = TestStatus.InProgress ∧
    "suspicious_activity" ∈ ["tab_switch", "full_screen_exit", "suspicious_activity"] ∧
    proctoringRoute tInProg "suspicious_activity" none 1234 =
      (tInProg, Resp.serverError) := by
  exact ⟨rfl, by decide,
    proctoring_always_errors_C10 tInProg "suspicious_activity" none 1234 rfl (by decide)⟩

/-! ## C5 — the percentage division is not guarded -/

/-- C5 counterexample: with `totalPoints = 0` the scoring engine does NOT
produce 0 — the unguarded `netScore / totalPoints` is `0 / 0`, so the stored
percentage is `NaN`, not the number 0. -/
theorem percentage_guard_C5_cex :
    (calculateScore [] cfgDefault).totalPoints = 0 ∧
    (calculateScore [] cfgDefault).percentage = JsNum.nan ∧
    JsNum.nan ≠ JsNum.fin 0 := by
  refine ⟨by decide, ?_, by decide⟩
  norm_num [calculateScore, tallyQuestions, jsDiv, jsMulPos, jsRoundNum]

/-- C5 (amended): the scoring engine computes
`percentage = round(netScore / totalPoints * 100)` whenever
`totalPoints ≠ 0`; when `totalPoints = 0` the division is unguarded and the
result is a non-finite JavaScript number (`NaN` or `±Infinity`), never the
number 0. -/
theorem percentage_formula_C5 :
    ∀ (qs : List TestQuestion) (cfg : TestConfig),
      ((calculateScore qs cfg).totalPoints = 0 →
        ∀ k : Rat, (calculateScore qs cfg).percentage ≠ JsNum.fin k) ∧
      ((calculateScore qs cfg).totalPoints ≠ 0 →
        (calculateScore qs cfg).percentage =
          JsNum.fin (jsRound (((calculateScore qs cfg).netScore : Rat) /
            ((calculateScore qs cfg).totalPoints : Rat) * 100))) := by
  intro qs cfg
  constructor
  · intro h k
    simp only [calculateScore] at h ⊢
    have h0 : (((tallyQuestions cfg.negativeMarking qs).totalPoints : Int) : Rat) = 0 := by
      exact_mod_cast h
    simp only [jsDiv, h0, if_pos rfl, jsMulPos, jsRoundNum]
    split_ifs <;> simp
  · intro h
    simp only [calculateScore] at h ⊢
    have h0 : (((tallyQuestions cfg.negativeMarking qs).totalPoints : Int) : Rat) ≠ 0 := by
      exact_mod_cast h
    simp [jsDiv, h0, jsMulPos, jsRoundNum]

/-- C5 witness: the two regimes at concrete inputs — the empty slot list
(total 0, non-finite percentage) and the worked 10-question session (total
30, percentage given by the formula). -/
theorem percentage_formula_C5_witness :
    ((calculateScore [] cfgDefault).totalPoints = 0 ∧
     (calculateScore [] cfgDefault).percentage ≠ JsNum.fin 0) ∧
    ((calculateScore c3Questions cfgDefault).totalPoints ≠ 0 ∧
     (calculateScore c3Questions cfgDefault).percentage =
       JsNum.fin (jsRound (((calculateScore c3Questions cfgDefault).netScore : Rat) /
         ((calculateScore c3Questions cfgDefault).totalPoints : Rat) * 100))) := by
  constructor
  · exact ⟨by decide, (percentage_formula_C5 [] cfgDefault).1 (by decide) 0⟩
  · exact ⟨by decide, (percentage_formula_C5 c3Questions cfgDefault).2 (by decide)⟩

/-! ## C6 — percentage bounds -/

/-- A single slot answered wrongly (3 points, 1 negative point). -/
def qWrong : TestQuestion := slot 1 true false

/-- C6 counterexample: with negative marking, a session whose only answered
question is wrong scores `netScore = -1` out of `totalPoints = 3`, and the
literal formula yields `percentage = round(-100/3) = -33 < 0`, violating the
claimed lower bound 0. -/
theorem percentage_bound_C6_cex :
    (calculateScore [qWrong] cfgDefault).percentage = JsNum.fin (-33) ∧
    ((-33 : Rat) < 0) := by
  have ht : tallyQuestions true [qWrong] = ⟨1, 0, 1, 0, 3, 0, 1⟩ := by decide
  constructor
  · norm_num [calculateScore, cfgDefault, ht, jsDiv, jsMulPos, jsRoundNum, jsRound]
  · norm_num

/-- The running tally preserves `pointsEarned - negativePoints ≤ totalPoints`
when every question carries non-negative points and penalty. -/
theorem tally_net_le (nm : Bool) :
    ∀ (qs : List TestQuestion) (acc : ScoreTally),
      (∀ q ∈ qs, 0 ≤ q.points ∧ 0 ≤ q.negativePoints) →
      acc.pointsEarned - acc.negativePoints ≤ acc.totalPoints →
      (qs.foldl (tallyStep nm) acc).pointsEarned -
          (qs.foldl (tallyStep nm) acc).negativePoints ≤
        (qs.foldl (tallyStep nm) acc).totalPoints := by
  intro qs
  induction qs with
  | nil => intro acc _ h; simpa using h
  | cons q rest ih =>
      intro acc hq h
      rw [List.foldl_cons]
      refine ih _ (fun x hx => hq x (List.mem_cons_of_mem q hx)) ?_
      have hpts := (hq q (List.mem_cons_self q rest)).1
      have hneg := (hq q (List.mem_cons_self q rest)).2
      unfold tallyStep
      split_ifs <;> simp <;> omega

/-- C6 (amended): the upper bound holds — on any slot list with non-negative
per-question points and penalties and positive `totalPoints`, the computed
percentage is a finite value `≤ 100`; the claimed lower bound 0 does not hold
(see the counterexample: negative marking can drive it below 0). -/
theorem percentage_upper_bound_C6 :
    ∀ (qs : List TestQuestion) (cfg : TestConfig),
      (∀ q ∈ qs, 0 ≤ q.points ∧ 0 ≤ q.negativePoints) →
      0 < (calculateScore qs cfg).totalPoints →
      ∃ p : Rat, (calculateScore qs cfg).percentage = JsNum.fin p ∧ p ≤ 100 := by
  intro qs cfg hq hpos
  simp only [calculateScore] at hpos ⊢
  set t := tallyQuestions cfg.negativeMarking qs with ht
  have hnet : t.pointsEarned - t.negativePoints ≤ t.totalPoints := by
    rw [ht]
    unfold tallyQuestions
    exact tally_net_le cfg.negativeMarking qs ⟨0, 0, 0, 0, 0, 0, 0⟩ hq (by simp)
  have hb : (0 : Rat) < ((t.totalPoints : Int) : Rat) := by exact_mod_cast hpos
  have hab : (((t.pointsEarned - t.negativePoints : Int)) : Rat) ≤
      ((t.totalPoints : Int) : Rat) := by exact_mod_cast hnet
  set x : Rat :=
    (((t.pointsEarned - t.negativePoints : Int)) : Rat) / ((t.totalPoints : Int) : Rat) * 100
    with hx
  have hxle : x ≤ 100 := by
    have hdiv := (div_le_one hb).mpr hab
    have := mul_le_mul_of_nonneg_right hdiv (by norm_num : (0 : Rat) ≤ 100)
    simpa [hx] using this
  refine ⟨((jsRound x : Int) : Rat), ?_, ?_⟩
  · simp [jsDiv, ne_of_gt hb, jsMulPos, jsRoundNum, hx]
  · have hy : x + 1 / 2 < 101 := by linarith
    have h2 : ((jsRound x : Int) : Rat) < 101 :=
      lt_of_le_of_lt (Int.floor_le (x + 1 / 2)) hy
    have h3 : (jsRound x : Int) < 101 := by exact_mod_cast h2
    have h4 : (jsRound x : Int) ≤ 100 := by omega
    exact_mod_cast h4

/-- C6 witness: the amended bound at the concrete all-wrong single-slot
session — the percentage is finite and at most 100 (it is in fact -33). -/
theorem percentage_upper_bound_C6_witness :
    (∀ q ∈ [qWrong], 0 ≤ q.points ∧ 0 ≤ q.negativePoints) ∧
    0 < (calculateScore [qWrong] cfgDefault).totalPoints ∧
    ∃ p : Rat, (calculateScore [qWrong] cfgDefault).percentage = JsNum.fin p ∧ p ≤ 100 := by
  exact ⟨by decide, by decide,
    percentage_upper_bound_C6 [qWrong] cfgDefault (by decide) (by decide)⟩

/-! ## C9 — the selector returns exactly `count` questions when the pool
suffices -/

/-- A sub-permutation maps to a sub-permutation. -/
theorem subperm_map_q {α β : Type} (f : α → β) {l1 l2 : List α} (h : l1 <+~ l2) :
    l1.map f <+~ l2.map f := by
  obtain ⟨l, hp, hs⟩ := h
  exact ⟨l.map f, hp.map f, hs.map f⟩

/-- A sub-permutation of a duplicate-free list is duplicate-free. -/
theorem subperm_nodup_q {α : Type} {l1 l2 : List α} (h : l1 <+~ l2)
    (hn : l2.Nodup) : l1.Nodup := by
  obtain ⟨l, hp, hs⟩ := h
  exact hp.nodup_iff.mp (hn.sublist hs)

/-- Everything a bucket pass draws comes from the base pool and carries one of
the listed difficulties. -/
theorem mem_drawBuckets (sampler : List Question → Nat → List Question)
    (hsamp : ∀ l k, sampler l k <+~ l ∧ (sampler l k).length = min k l.length)
    (base : List Question) (count : Nat) :
    ∀ (diffs : List (String × Int)) (q : Question),
      q ∈ drawBuckets sampler base count diffs →
      q ∈ base ∧ ∃ dp ∈ diffs, q.difficulty = dp.1 := by
  intro diffs
  induction diffs with
  | nil => intro q hq; simp [drawBuckets] at hq
  | cons dp rest ih =>
      intro q hq
      rw [drawBuckets, List.mem_append] at hq
      rcases hq with hq | hq
      · have hmem := (hsamp (base.filter (fun q => q.difficulty == dp.1))
          (bucketSize count dp.2)).1.subset hq
        rw [List.mem_filter] at hmem
        exact ⟨hmem.1, dp, List.mem_cons_self dp rest, by simpa using hmem.2⟩
      · obtain ⟨hb, dp2, hdp2, hdiff⟩ := ih q hq
        exact ⟨hb, dp2, List.mem_cons_of_mem dp hdp2, hdiff⟩

/-- When the base pool has duplicate-free ids and the difficulty keys are
distinct, the concatenated bucket draws have duplicate-free ids. -/
theorem nodup_ids_drawBuckets (sampler : List Question → Nat → List Question)
    (hsamp : ∀ l k, sampler l k <+~ l ∧ (sampler l k).length = min k l.length)
    (base : List Question) (count : Nat)
    (hbase : (base.map Question.id).Nodup) :
    ∀ (diffs : List (String × Int)), (diffs.map Prod.fst).Nodup →
      ((drawBuckets sampler base count diffs).map Question.id).Nodup := by
  intro diffs
  induction diffs with
  | nil => intro _; simp [drawBuckets]
  | cons dp rest ih =>
      intro hnd
      rw [List.map_cons, List.nodup_cons] at hnd
      rw [drawBuckets, List.map_append, List.nodup_append]
      have hsub : sampler (base.filter (fun q => q.difficulty == dp.1))
          (bucketSize count dp.2) <+~ base :=
        (hsamp _ _).1.trans (base.filter_sublist).subperm
      refine ⟨subperm_nodup_q (subperm_map_q Question.id hsub) hbase, ih hnd.2, ?_⟩
      intro i hi1 hi2
      obtain ⟨q1, hq1, hq1i⟩ := List.mem_map.mp hi1
      obtain ⟨q2, hq2, hq2i⟩ := List.mem_map.mp hi2
      have hq1b := (hsamp _ _).1.subset hq1
      rw [List.mem_filter] at hq1b
      obtain ⟨hq2b, dp2, hdp2, hq2d⟩ :=
        mem_drawBuckets sampler hsamp base count rest q2 hq2
      have heq : q1 = q2 :=
        List.inj_on_of_nodup_map hbase hq1b.1 hq2b (by rw [hq1i, hq2i])
      have hd1 : q1.difficulty = dp.1 := by simpa using hq1b.2
      apply hnd.1
      rw [List.mem_map]
      exact ⟨dp2, hdp2, by rw [← hq2d, ← heq, hd1]⟩

/-- Removing an id-distinct selection from an id-distinct pool leaves at
least `pool minus selection` many questions. -/
theorem filter_not_used_length (base used : List Question)
    (hbase : (base.map Question.id).Nodup) :
    base.length - used.length ≤
      (base.filter (fun q => !((used.map Question.id).contains q.id))).length := by
  have hsplit :=
    List.length_eq_length_filter_add (l := base)
      (fun q => ((used.map Question.id).contains q.id))
  have hle : (base.filter (fun q => (used.map Question.id).contains q.id)).length ≤
      used.length := by
    have hmapsub : (base.filter (fun q => (used.map Question.id).contains q.id)).map
        Question.id ⊆ used.map Question.id := by
      intro i hi
      obtain ⟨q, hq, hqi⟩ := List.mem_map.mp hi
      rw [List.mem_filter] at hq
      rw [← hqi]
      simpa using hq.2
    have hmapnd : ((base.filter
        (fun q => (used.map Question.id).contains q.id)).map Question.id).Nodup :=
      hbase.sublist ((base.filter_sublist).map Question.id)
    have := (List.subperm_of_subset hmapnd hmapsub).length_le
    simpa using this
  omega

/-- C9: with `$sample` modelled as any without-replacement draw and the final
shuffle as any permutation, `getRandomQuestions` returns a list drawn entirely
from the eligible (active, approved, non-excluded) pool with no repeated
question, and of length exactly `count` whenever that pool holds at least
`count` questions — the per-difficulty buckets of size
`round(count*percentage/100)` plus the any-difficulty fallback always reach
`count` before the final `slice(0, count)`. -/
theorem selector_count_C9 :
    ∀ (sampler : List Question → Nat → List Question)
      (shuffle : List Question → List Question)
      (pool : List Question) (count : Nat) (difficulty : List (String × Int))
      (categories : List String) (excludeIds : List Nat),
      (∀ l k, sampler l k <+~ l ∧ (sampler l k).length = min k l.length) →
      (∀ l, shuffle l ~ l) →
      ((eligibleQuestions pool categories excludeIds).map Question.id).Nodup →
      (difficulty.map Prod.fst).Nodup →
      count ≤ (eligibleQuestions pool categories excludeIds).length →
      (getRandomQuestions sampler shuffle pool count difficulty categories
        excludeIds).length = count ∧
      ((getRandomQuestions sampler shuffle pool count difficulty categories
        excludeIds).map Question.id).Nodup ∧
      (∀ q ∈ getRandomQuestions sampler shuffle pool count difficulty categories
        excludeIds, q ∈ eligibleQuestions pool categories excludeIds) := by
  intro sampler shuffle pool count difficulty categories excludeIds hsamp hshuf
    hnodup hdiffs hcount
  simp only [getRandomQuestions,
    show (fun (q : Question) => q.id) = Question.id from rfl]
  set base := eligibleQuestions pool categories excludeIds with hbasedef
  set bq := drawBuckets sampler base count difficulty with hbqdef
  have hmem : ∀ q ∈ bq, q ∈ base := fun q hq =>
    (mem_drawBuckets sampler hsamp base count difficulty q hq).1
  have hbqn : (bq.map Question.id).Nodup :=
    nodup_ids_drawBuckets sampler hsamp base count hnodup difficulty hdiffs
  set qs := if bq.length < count then
      bq ++ sampler (base.filter (fun q => !((bq.map Question.id).contains q.id)))
        (count - bq.length)
    else bq with hqsdef
  have hqslen : count ≤ qs.length := by
    rw [hqsdef]
    by_cases hshort : bq.length < count
    · rw [if_pos hshort, List.length_append]
      have hfb := filter_not_used_length base bq hnodup
      have hdraw : (sampler (base.filter
          (fun q => !((bq.map Question.id).contains q.id)))
          (count - bq.length)).length = count - bq.length := by
        rw [(hsamp _ _).2]
        omega
      omega
    · rw [if_neg hshort]
      omega
  have hqsmem : ∀ q ∈ qs, q ∈ base := by
    rw [hqsdef]
    by_cases hshort : bq.length < count
    · rw [if_pos hshort]
      intro q hq
      rcases List.mem_append.mp hq with hq | hq
      · exact hmem q hq
      · have := (hsamp _ _).1.subset hq
        exact (List.mem_filter.mp this).1
    · rw [if_neg hshort]
      exact hmem
  have hqsnodup : (qs.map Question.id).Nodup := by
    rw [hqsdef]
    by_cases hshort : bq.length < count
    · rw [if_pos hshort, List.map_append, List.nodup_append]
      have hdsub : sampler (base.filter
          (fun q => !((bq.map Question.id).contains q.id)))
          (count - bq.length) <+~ base :=
        (hsamp _ _).1.trans (base.filter_sublist).subperm
      refine ⟨hbqn, subperm_nodup_q (subperm_map_q Question.id hdsub) hnodup, ?_⟩
      intro i hi1 hi2
      obtain ⟨q2, hq2, hq2i⟩ := List.mem_map.mp hi2
      have hq2f := (hsamp _ _).1.subset hq2
      rw [List.mem_filter] at hq2f
      have : ¬ (q2.id ∈ bq.map Question.id) := by simpa using hq2f.2
      exact this (hq2i ▸ hi1)
    · rw [if_neg hshort]
      exact hbqn
  have htake : (shuffle qs).take count <+~ qs :=
    (((shuffle qs).take_sublist count).subperm).trans (hshuf qs).subperm
  refine ⟨?_, subperm_nodup_q (subperm_map_q Question.id htake) hqsnodup,
    fun q hq => hqsmem q (htake.subset hq)⟩
  rw [List.length_take, (hshuf qs).length_eq]
  omega

/-- C9 witness: a concrete pool of four eligible questions, a request for
three with the 30/30/40 split, the take-a-prefix sampler and the identity
shuffle — the selector returns exactly three questions. -/
theorem selector_count_C9_witness :
    (getRandomQuestions (fun l k => l.take k) (fun l => l)
      [⟨1, "Active", true, "G", "Easy"⟩, ⟨2, "Active", true, "G", "Easy"⟩,
       ⟨3, "Active", true, "G", "Moderate"⟩, ⟨4, "Active", true, "G", "Hard"⟩]
      3 [("Easy", 30), ("Moderate", 30), ("Hard", 40)] [] []).length = 3 := by
  exact (selector_count_C9 (fun l k => l.take k) (fun l => l) _ 3 _ [] []
    (fun l k => ⟨(l.take_sublist k).subperm, l.length_take k⟩)
    (fun l => List.Perm.refl l) (by decide) (by decide) (by decide)).1
